import Mathlib

/-!
Shallow embedding of `src/lib.rs` of `reqwest-resolve-test`: two adapter
variants (`CustomDnsResolver`, holding the resolver behind an `Arc`, and
`MyCustomDnsResolver`, owning it directly) around one shared resolution
routine `do_resolve`.

The underlying `TokioAsyncResolver` is modelled extensionally as a function
from hostnames to the result of `lookup_ip`: either an error value or the
ordered list of resolved addresses.  Addresses are an abstract type `α`,
resolver errors an abstract type `ε`.  The asynchronous future returned by
each `resolve` is modelled as a task value: the variant A task owns its own
clone of the shared handle and can be driven on its own; the variant B task
captures a borrow of the adapter, modelled as an adapter argument that must
still be live (`some`) when the task is driven.
-/

/-- `hyper::client::connect::dns::Name`: a hostname to resolve. -/
def Name := String

/-- `Name::as_str`: the textual form of the hostname. -/
def Name.as_str (n : Name) : String := n

/-- `std::net::SocketAddr` specialised to this program: a resolved network
address paired with a port number. -/
structure SocketAddr (α : Type) where
  ip : α
  port : Nat
deriving DecidableEq, Repr

/-- `SocketAddr::from((s, port))`. -/
def SocketAddr.from {α : Type} (p : α × Nat) : SocketAddr α := ⟨p.1, p.2⟩

/-- `Box<dyn StdError + Send + Sync>`: the error of the resolver, type-erased by
boxing (the `?` in `do_resolve` applies this conversion).  The underlying
error value is carried unaltered. -/
structure BoxError (ε : Type) where
  val : ε
deriving DecidableEq, Repr

/-- The externally supplied `TokioAsyncResolver`, modelled extensionally by
the behaviour of its `lookup_ip` operation: for each queried hostname,
either the error of the resolver or its ordered address list. -/
def Resolver (α ε : Type) := String → Except ε (List α)

/-- `std::sync::Arc`: a shared-ownership handle around a value.  Reference
counts are not observable; a clone is the same handle value. -/
structure Arc (β : Type) where
  value : β

/-- `Arc::new`. -/
def Arc.new {β : Type} (v : β) : Arc β := ⟨v⟩

/-- `Arc::clone`: a cheap reference-count increment producing another handle
to the same value. -/
def Arc.clone {β : Type} (a : Arc β) : Arc β := a

/-- `reqwest::dns::Addrs`, as built by `do_resolve`: the boxed iterator
`list.into_iter().map(|s| SocketAddr::from((s, 0)))` — a lazily mapped view
over the raw address list, mapping each address to an endpoint with port 0
only when the iterator is advanced. -/
structure Addrs (α : Type) where
  raw : List α
deriving DecidableEq, Repr

/-- Advancing the lazily mapped iterator: pops the next raw address (if any)
and applies the mapping `|s| SocketAddr::from((s, 0))` to it on demand. -/
def Addrs.next {α : Type} (it : Addrs α) : Option (SocketAddr α × Addrs α) :=
  match it with
  | ⟨[]⟩ => none
  | ⟨a :: rest⟩ => some (SocketAddr.from (a, 0), ⟨rest⟩)

/-- Iterating the `Addrs` iterator to exhaustion, collecting the yielded
endpoints in order. -/
def Addrs.toList {α : Type} (it : Addrs α) : List (SocketAddr α) :=
  match h : it.next with
  | none => []
  | some (sa, it') => sa :: it'.toList
termination_by it.raw.length
decreasing_by
  rcases it with ⟨raw⟩
  cases raw with
  | nil => simp [Addrs.next] at h
  | cons a rest =>
    simp only [Addrs.next] at h
    cases h
    simp

/-- The shared resolution routine `do_resolve`: issue the one `lookup_ip`
call; on error, box it (`?`) and return it; on success, return the lazily
mapped endpoint iterator over the address list. -/
def do_resolve {α ε : Type} (resolver : Resolver α ε) (name : Name) :
    Except (BoxError ε) (Addrs α) :=
  match resolver name.as_str with
  | .error e => .error ⟨e⟩
  | .ok list => .ok ⟨list⟩

/-- The eagerly materialized alternative the spec compares against: the same
lookup, but with the endpoint list computed up front. -/
def do_resolve_eager {α ε : Type} (resolver : Resolver α ε) (name : Name) :
    Except (BoxError ε) (List (SocketAddr α)) :=
  match resolver name.as_str with
  | .error e => .error ⟨e⟩
  | .ok list => .ok (list.map fun s => SocketAddr.from (s, 0))

/-- The single resolver invocation `resolver.lookup_ip(name.as_str())` in
`do_resolve`, instrumented to record the queried name. -/
def lookup_ip {α ε : Type} (resolver : Resolver α ε) (name : Name) :
    Except ε (List α) × List String :=
  (resolver name.as_str, [name.as_str])

/-- `do_resolve`, instrumented with the trace of lookups it issues against
the underlying resolver: the one `lookup_ip` call, on both the success and
the error path. -/
def do_resolveT {α ε : Type} (resolver : Resolver α ε) (name : Name) :
    Except (BoxError ε) (Addrs α) × List String :=
  match lookup_ip resolver name with
  | (.error e, tr) => (.error ⟨e⟩, tr)
  | (.ok list, tr) => (.ok ⟨list⟩, tr)

/-- Variant A (`CustomDnsResolver`): holds the resolver behind an `Arc` so
that a clone of the handle can be moved into each returned future. -/
structure CustomDnsResolver (α ε : Type) where
  resolver : Arc (Resolver α ε)

/-- `CustomDnsResolver::new`: wrap the supplied resolver in an `Arc`. -/
def CustomDnsResolver.new {α ε : Type} (resolver : Resolver α ε) :
    CustomDnsResolver α ε :=
  { resolver := Arc.new resolver }

/-- The future returned by `resolve` of variant A: the `async move` block of
`CustomDnsResolver::resolve`, which owns the cloned `Arc` handle and the
name it captured, and runs `do_resolve` on them when driven. -/
structure Resolving (α ε : Type) where
  resolver : Arc (Resolver α ε)
  name : Name

/-- `CustomDnsResolver::resolve`: clone the shared handle, then return the
`async move` task built from the clone and the name. -/
def CustomDnsResolver.resolve {α ε : Type} (self : CustomDnsResolver α ε)
    (name : Name) : Resolving α ε :=
  let resolver := self.resolver.clone
  { resolver := resolver, name := name }

/-- Driving a variant A task to completion: it runs the shared routine on
the handle it owns.  The signature takes only the task itself — the task
holds no borrow of the adapter that created it. -/
def Resolving.run {α ε : Type} (t : Resolving α ε) :
    Except (BoxError ε) (Addrs α) :=
  do_resolve t.resolver.value t.name

/-- Driving a variant A task in a world where the slot of the producing adapter
may already be dropped (`none`): the task owns its cloned handle and never
touches the slot, so it always completes. -/
def Resolving.drive {α ε : Type} (t : Resolving α ε)
    (slot : Option (CustomDnsResolver α ε)) :
    Option (Except (BoxError ε) (Addrs α)) :=
  match slot with
  | _ => some t.run

/-- Variant B (`MyCustomDnsResolver`): owns the resolver directly, with no
shared-ownership wrapper. -/
structure MyCustomDnsResolver (α ε : Type) where
  resolver : Resolver α ε

/-- `MyCustomDnsResolver::new`: store the supplied resolver directly. -/
def MyCustomDnsResolver.new {α ε : Type} (resolver : Resolver α ε) :
    MyCustomDnsResolver α ε :=
  { resolver := resolver }

/-- The future returned by `resolve` of variant B (the type `MyResolving`
with its lifetime parameter): it captures the name and a borrow of the
field `self.resolver` of the adapter.  The
borrow is modelled as the adapter argument of `MyResolving.drive`, which
must still be live (`some`) when the task is driven. -/
structure MyResolving (α ε : Type) where
  name : Name

/-- `MyCustomDnsResolver::resolve`: return the future `do_resolve(&self.resolver, name)`,
which borrows the resolver of the adapter for the lifetime of `self`. -/
def MyCustomDnsResolver.resolve {α ε : Type} (_self : MyCustomDnsResolver α ε)
    (name : Name) : MyResolving α ε :=
  { name := name }

/-- Driving a variant B task: the captured borrow of the adapter must still
be live; if the adapter slot has been dropped (`none`) there is no adapter
to borrow from and the task cannot be driven at all. -/
def MyResolving.drive {α ε : Type} (t : MyResolving α ε)
    (slot : Option (MyCustomDnsResolver α ε)) :
    Option (Except (BoxError ε) (Addrs α)) :=
  slot.map fun a => do_resolve a.resolver t.name

/-- `CustomDnsResolver::new`, instrumented with the trace of lookups it
issues: the body only wraps the resolver in an `Arc`, so none. -/
def CustomDnsResolver.newT {α ε : Type} (resolver : Resolver α ε) :
    CustomDnsResolver α ε × List String :=
  (CustomDnsResolver.new resolver, [])

/-- `MyCustomDnsResolver::new`, instrumented with the trace of lookups it
issues: the body only stores the resolver, so none. -/
def MyCustomDnsResolver.newT {α ε : Type} (resolver : Resolver α ε) :
    MyCustomDnsResolver α ε × List String :=
  (MyCustomDnsResolver.new resolver, [])

/-- `CustomDnsResolver::resolve` takes `&self`: in state-passing form it
returns the produced task together with the adapter, which it cannot have
modified. -/
def CustomDnsResolver.resolveS {α ε : Type} (self : CustomDnsResolver α ε)
    (name : Name) : Resolving α ε × CustomDnsResolver α ε :=
  (self.resolve name, self)

/-- `MyCustomDnsResolver::resolve` takes `self` by shared reference: in
state-passing form
it returns the produced task together with the adapter, which it cannot
have modified. -/
def MyCustomDnsResolver.resolveS {α ε : Type} (self : MyCustomDnsResolver α ε)
    (name : Name) : MyResolving α ε × MyCustomDnsResolver α ε :=
  (self.resolve name, self)

/-- A variant A task in flight, as a state machine with the single suspension
point of `do_resolve` at the resolver lookup: created (not yet polled),
waiting (lookup issued, suspended at the `await`), finished. -/
inductive TaskState (α ε : Type) where
  | created (resolver : Resolver α ε) (name : Name)
  | waiting (resolver : Resolver α ε) (name : Name)
  | finished (r : Except (BoxError ε) (Addrs α))

/-- The variant A task as a state machine, starting before its first poll. -/
def Resolving.toTask {α ε : Type} (t : Resolving α ε) : TaskState α ε :=
  .created t.resolver.value t.name

/-- One cooperative step of a task: the first poll issues the lookup and
suspends; the answer of the resolver then completes the task with the result of the
shared routine; a finished task stays finished. -/
def TaskState.step {α ε : Type} : TaskState α ε → TaskState α ε
  | .created res n => .waiting res n
  | .waiting res n => .finished (do_resolve res n)
  | .finished r => .finished r

/-- `k` cooperative steps of a task. -/
def TaskState.stepN {α ε : Type} : Nat → TaskState α ε → TaskState α ε
  | 0, t => t
  | k + 1, t => TaskState.stepN k t.step

/-- One scheduler step on a pair of in-flight tasks: `true` steps the first
task, `false` the second. -/
def stepPair {α ε : Type} (side : Bool) (p : TaskState α ε × TaskState α ε) :
    TaskState α ε × TaskState α ε :=
  if side then (p.1.step, p.2) else (p.1, p.2.step)

/-- Running two in-flight tasks under an arbitrary interleaving schedule. -/
def runPair {α ε : Type} (sched : List Bool)
    (p : TaskState α ε × TaskState α ε) : TaskState α ε × TaskState α ε :=
  match sched with
  | [] => p
  | b :: rest => runPair rest (stepPair b p)

lemma stepN_finished {α ε : Type} (k : Nat) (r : Except (BoxError ε) (Addrs α)) :
    TaskState.stepN k (TaskState.finished r) = TaskState.finished r := by
  induction k with
  | zero => rfl
  | succ k ih => simpa [TaskState.stepN, TaskState.step] using ih

lemma stepN_created {α ε : Type} (k : Nat) (hk : 2 ≤ k)
    (res : Resolver α ε) (n : Name) :
    TaskState.stepN k (TaskState.created res n) =
      TaskState.finished (do_resolve res n) := by
  obtain ⟨m, rfl⟩ : ∃ m, k = m + 2 := ⟨k - 2, by omega⟩
  show TaskState.stepN (m + 2) _ = _
  simp only [TaskState.stepN, TaskState.step]
  exact stepN_finished m _

lemma runPair_fst {α ε : Type} (sched : List Bool)
    (p : TaskState α ε × TaskState α ε) :
    (runPair sched p).1 = TaskState.stepN (sched.count true) p.1 := by
  induction sched generalizing p with
  | nil => rfl
  | cons b rest ih =>
    cases b with
    | true =>
      simp only [runPair, stepPair, if_pos rfl, List.count_cons, ih]
      simp [TaskState.stepN, Nat.add_comm]
    | false =>
      simp only [runPair, stepPair, ih]
      simp [List.count_cons]

/-- Convenience constructor for hostnames in concrete instances. -/
def Name.of (s : String) : Name := s

lemma Addrs.toList_eq_map {α : Type} (l : List α) :
    Addrs.toList ⟨l⟩ = l.map fun a => SocketAddr.from (a, 0) := by
  induction l with
  | nil => rw [Addrs.toList]; simp [Addrs.next]
  | cons a rest ih => rw [Addrs.toList]; simp [Addrs.next, ih]

/-- Claim C1: for every name the wrapped resolver resolves to the ordered
list `l`, both adapter variants yield the endpoint sequence pairing each
address of `l`, in order, with port 0: the variant A task completes with the
`Addrs` view over `l`, iterating that view yields exactly `l` mapped to
port-0 endpoints (no filtering, reordering or duplication), and the variant B
task, driven against its live adapter, completes with the same value. -/
theorem resolve_success_preserves_order {α ε : Type} (r : Resolver α ε)
    (n : Name) (l : List α) (h : r n.as_str = .ok l) :
    ((CustomDnsResolver.new r).resolve n).run = .ok ⟨l⟩ ∧
    Addrs.toList (⟨l⟩ : Addrs α) = (l.map fun a => SocketAddr.from (a, 0)) ∧
    ((MyCustomDnsResolver.new r).resolve n).drive
        (some (MyCustomDnsResolver.new r)) = some (.ok ⟨l⟩) := by
  refine ⟨?_, Addrs.toList_eq_map l, ?_⟩ <;>
    simp [Resolving.run, MyResolving.drive, CustomDnsResolver.resolve,
      MyCustomDnsResolver.resolve, CustomDnsResolver.new,
      MyCustomDnsResolver.new, Arc.new, Arc.clone, do_resolve, h]

/-- Claim C1 witness: a resolver answering with the two addresses `[3, 7]`
yields, on both variants, the endpoints `[(3,0), (7,0)]` in order. -/
theorem resolve_success_preserves_order_witness :
    ((CustomDnsResolver.new (α := Nat) (ε := String)
        (fun _ => .ok [3, 7])).resolve (Name.of "example.com")).run
      = .ok ⟨[3, 7]⟩ ∧
    Addrs.toList (⟨[3, 7]⟩ : Addrs Nat)
      = ([3, 7].map fun a => SocketAddr.from (a, 0)) ∧
    ((MyCustomDnsResolver.new (α := Nat) (ε := String)
        (fun _ => .ok [3, 7])).resolve (Name.of "example.com")).drive
        (some (MyCustomDnsResolver.new (fun _ => .ok [3, 7])))
      = some (.ok ⟨[3, 7]⟩) :=
  resolve_success_preserves_order (fun _ => .ok [3, 7])
    (Name.of "example.com") [3, 7] rfl

/-- Claim C2: for every name on which the wrapped resolver fails with error
`e`, both variants surface exactly that error, type-erased by boxing but
with the underlying value `e` unaltered: no reclassification, no fallback
address, no partial result. -/
theorem resolve_failure_propagates_error {α ε : Type} (r : Resolver α ε)
    (n : Name) (e : ε) (h : r n.as_str = .error e) :
    ((CustomDnsResolver.new r).resolve n).run
      = .error (⟨e⟩ : BoxError ε) ∧
    ((MyCustomDnsResolver.new r).resolve n).drive
        (some (MyCustomDnsResolver.new r)) = some (.error ⟨e⟩) := by
  constructor <;>
    simp [Resolving.run, MyResolving.drive, CustomDnsResolver.resolve,
      MyCustomDnsResolver.resolve, CustomDnsResolver.new,
      MyCustomDnsResolver.new, Arc.new, Arc.clone, do_resolve, h]

/-- Claim C2 witness: a resolver failing with the error string `"NXDOMAIN"`
yields, on both variants, exactly that error, boxed. -/
theorem resolve_failure_propagates_error_witness :
    ((CustomDnsResolver.new (α := Nat) (ε := String)
        (fun _ => .error "NXDOMAIN")).resolve
        (Name.of "nonexistent.invalid")).run
      = .error (⟨"NXDOMAIN"⟩ : BoxError String) ∧
    ((MyCustomDnsResolver.new (α := Nat) (ε := String)
        (fun _ => .error "NXDOMAIN")).resolve
        (Name.of "nonexistent.invalid")).drive
        (some (MyCustomDnsResolver.new (fun _ => .error "NXDOMAIN")))
      = some (.error ⟨"NXDOMAIN"⟩) :=
  resolve_failure_propagates_error (fun _ => .error "NXDOMAIN")
    (Name.of "nonexistent.invalid") "NXDOMAIN" rfl

/-- Claim C3: the two adapter variants are observably equivalent: for the
same underlying resolver and name, driving the variant B task against its
live adapter yields exactly the result of driving the variant A task, and
both are the one shared routine `do_resolve` applied to that resolver and
name. -/
theorem variants_equivalent {α ε : Type} (r : Resolver α ε) (n : Name) :
    ((MyCustomDnsResolver.new r).resolve n).drive
        (some (MyCustomDnsResolver.new r))
      = some (((CustomDnsResolver.new r).resolve n).run) ∧
    ((CustomDnsResolver.new r).resolve n).run = do_resolve r n := by
  constructor <;>
    simp [Resolving.run, MyResolving.drive, CustomDnsResolver.resolve,
      MyCustomDnsResolver.resolve, CustomDnsResolver.new,
      MyCustomDnsResolver.new, Arc.new, Arc.clone]

/-- Claim C4: every resolve call issues exactly one lookup against the
underlying resolver — the lookup trace of the instrumented shared routine is
exactly the queried name, once, on the success path and on the error path
alike — and its result is what the tasks of both variants complete with. -/
theorem resolve_issues_exactly_one_lookup {α ε : Type} (r : Resolver α ε)
    (n : Name) :
    (do_resolveT r n).2 = [n.as_str] ∧
    (do_resolveT r n).1 = ((CustomDnsResolver.new r).resolve n).run ∧
    some (do_resolveT r n).1
      = ((MyCustomDnsResolver.new r).resolve n).drive
          (some (MyCustomDnsResolver.new r)) := by
  cases h : r n.as_str <;>
    simp [do_resolveT, lookup_ip, Resolving.run, MyResolving.drive,
      CustomDnsResolver.resolve, MyCustomDnsResolver.resolve,
      CustomDnsResolver.new, MyCustomDnsResolver.new, Arc.new, Arc.clone,
      do_resolve, h]

/-- Claim C5: on variant A, `resolve` moves a clone of the shared handle
into the task it returns: the handle of the task is exactly the clone of
the handle of the adapter, and driving the task completes with the result
of the shared routine whatever the adapter slot holds — including `none`, the world in
which the producing adapter has already been dropped. -/
theorem variantA_task_survives_drop {α ε : Type} (r : Resolver α ε)
    (n : Name) (slot : Option (CustomDnsResolver α ε)) :
    ((CustomDnsResolver.new r).resolve n).resolver
      = (CustomDnsResolver.new r).resolver.clone ∧
    ((CustomDnsResolver.new r).resolve n).drive slot
      = some (do_resolve r n) := by
  constructor <;>
    simp [Resolving.drive, Resolving.run, CustomDnsResolver.resolve,
      CustomDnsResolver.new, Arc.new, Arc.clone]

/-- Claim C6: the variant B task captures a borrow of the resolver owned
by the adapter:
driving it requires the adapter to still be live — with the adapter slot
dropped (`none`) the task cannot be driven at all, and with the live
adapter it completes with the shared routine applied to the own resolver
of the adapter and the name held by the task. -/
theorem variantB_task_requires_live_adapter {α ε : Type}
    (a : MyCustomDnsResolver α ε) (n : Name) :
    (a.resolve n).drive none = none ∧
    (a.resolve n).drive (some a) = some (do_resolve a.resolver n) := by
  constructor <;> simp [MyResolving.drive, MyCustomDnsResolver.resolve]

/-- Claim C7: concurrent variant A resolve calls do not interfere.  Running
the task for `n₁` interleaved with a task for any second name, under any
schedule that polls the first task to completion (at least its two steps),
leaves the first task finished with exactly `do_resolve r n₁` — the same
result whatever the name of the other task and whatever the interleaving. -/
theorem variantA_concurrent_noninterference {α ε : Type} (r : Resolver α ε)
    (n₁ n₂ n₂' : Name) (s s' : List Bool)
    (hs : 2 ≤ s.count true) (hs' : 2 ≤ s'.count true) :
    (runPair s (((CustomDnsResolver.new r).resolve n₁).toTask,
                ((CustomDnsResolver.new r).resolve n₂).toTask)).1
      = (runPair s' (((CustomDnsResolver.new r).resolve n₁).toTask,
                     ((CustomDnsResolver.new r).resolve n₂').toTask)).1 ∧
    (runPair s (((CustomDnsResolver.new r).resolve n₁).toTask,
                ((CustomDnsResolver.new r).resolve n₂).toTask)).1
      = TaskState.finished (do_resolve r n₁) := by
  have key : ∀ (m : Name) (sch : List Bool), 2 ≤ sch.count true →
      (runPair sch (((CustomDnsResolver.new r).resolve n₁).toTask,
                    ((CustomDnsResolver.new r).resolve m).toTask)).1
        = TaskState.finished (do_resolve r n₁) := by
    intro m sch hsch
    rw [runPair_fst]
    have : (((CustomDnsResolver.new r).resolve n₁).toTask : TaskState α ε)
        = TaskState.created r n₁ := by
      simp [Resolving.toTask, CustomDnsResolver.resolve,
        CustomDnsResolver.new, Arc.new, Arc.clone]
    rw [this, stepN_created _ hsch]
  exact ⟨(key n₂ s hs).trans (key n₂' s' hs').symm, key n₂ s hs⟩

/-- A concrete resolver over `Nat` addresses and `String` errors, answering
`"a"` with `[1]` and every other name with `[2]`, used in witnesses. -/
def rw2 : Resolver Nat String :=
  fun s => if s = "a" then .ok [1] else .ok [2]

/-- Claim C7 witness: with the concrete resolver `rw2` and the schedules
`[true, true]` and `[false, true, false, true]`, the result of the first task is
`do_resolve` at its own name, independent of the name of the second task
and of the interleaving. -/
theorem variantA_concurrent_noninterference_witness :
    (runPair [true, true]
        (((CustomDnsResolver.new rw2).resolve (Name.of "a")).toTask,
         ((CustomDnsResolver.new rw2).resolve (Name.of "b")).toTask)).1
      = (runPair [false, true, false, true]
          (((CustomDnsResolver.new rw2).resolve (Name.of "a")).toTask,
           ((CustomDnsResolver.new rw2).resolve (Name.of "c")).toTask)).1 ∧
    (runPair [true, true]
        (((CustomDnsResolver.new rw2).resolve (Name.of "a")).toTask,
         ((CustomDnsResolver.new rw2).resolve (Name.of "b")).toTask)).1
      = TaskState.finished (do_resolve rw2 (Name.of "a")) :=
  variantA_concurrent_noninterference rw2
    (Name.of "a") (Name.of "b") (Name.of "c")
    [true, true] [false, true, false, true] (by decide) (by decide)

/-- Claim C8: the lazily mapped `Addrs` view is observably equivalent to the
eagerly materialized list: for every resolver result, iterating the
returned view to exhaustion yields exactly the eagerly computed list of
port-0 endpoints. -/
theorem lazy_addrs_equiv_eager {α ε : Type} (r : Resolver α ε) (n : Name) :
    (do_resolve r n).map Addrs.toList = do_resolve_eager r n := by
  cases h : r n.as_str <;>
    simp [do_resolve, do_resolve_eager, h, Except.map, Addrs.toList_eq_map]

/-- Claim C9: a successful lookup with an empty address list is surfaced as
success with an empty endpoint sequence on both variants, not converted
into an error. -/
theorem empty_result_stays_success {α ε : Type} (r : Resolver α ε)
    (n : Name) (h : r n.as_str = .ok []) :
    ((CustomDnsResolver.new r).resolve n).run = .ok ⟨[]⟩ ∧
    Addrs.toList (⟨[]⟩ : Addrs α) = [] ∧
    ((MyCustomDnsResolver.new r).resolve n).drive
        (some (MyCustomDnsResolver.new r)) = some (.ok ⟨[]⟩) := by
  refine ⟨?_, by rw [Addrs.toList]; simp [Addrs.next], ?_⟩ <;>
    simp [Resolving.run, MyResolving.drive, CustomDnsResolver.resolve,
      MyCustomDnsResolver.resolve, CustomDnsResolver.new,
      MyCustomDnsResolver.new, Arc.new, Arc.clone, do_resolve, h]

/-- Claim C9 witness: a resolver answering every name with the empty list
yields success with the empty endpoint sequence on both variants. -/
theorem empty_result_stays_success_witness :
    ((CustomDnsResolver.new (α := Nat) (ε := String)
        (fun _ => .ok [])).resolve (Name.of "example.com")).run
      = .ok ⟨[]⟩ ∧
    Addrs.toList (⟨[]⟩ : Addrs Nat) = [] ∧
    ((MyCustomDnsResolver.new (α := Nat) (ε := String)
        (fun _ => .ok [])).resolve (Name.of "example.com")).drive
        (some (MyCustomDnsResolver.new (fun _ => .ok [])))
      = some (.ok ⟨[]⟩) :=
  empty_result_stays_success (fun _ => .ok [])
    (Name.of "example.com") rfl

/-- Claim C10: construction stores the supplied resolver without performing
any lookup (the instrumented constructors issue an empty lookup trace), and
`resolve` takes the adapter by shared reference: in state-passing form it
returns the adapter unchanged, so the adapter wraps the same resolver
before and after every call. -/
theorem adapters_frame {α ε : Type} (r : Resolver α ε) (n : Name)
    (a : CustomDnsResolver α ε) (b : MyCustomDnsResolver α ε) :
    (CustomDnsResolver.new r).resolver = Arc.new r ∧
    (MyCustomDnsResolver.new r).resolver = r ∧
    (CustomDnsResolver.newT r).2 = [] ∧
    (MyCustomDnsResolver.newT r).2 = [] ∧
    (a.resolveS n).2 = a ∧
    (b.resolveS n).2 = b := by
  refine ⟨rfl, rfl, rfl, rfl, rfl, rfl⟩
